import Mathlib

set_option maxRecDepth 40000

namespace G4J

/-! Shallow embedding of the g4j test-automation code generators.

Python strings are modelled as lists of characters (`Str`); the Python
string operations the generators use (`str.replace`, `str.join`,
`str.title`, `str.lower`, `str.capitalize`, `str.split`) are defined below
with CPython semantics on that representation.  Each generator variant in
the repository is embedded as a pure Lean function.  The wall clock read
by `TestGenerator.generate_test_suite` (`datetime.now().strftime(...)`)
is passed as an explicit `now` argument, and Python exceptions
(`ValueError`) are modelled with `Except`. -/

/-- Python strings, modelled as lists of characters. -/
abbrev Str := List Char

/-- `pat.hasPrefixB s` decides whether `pat` is a prefix of `s`
(used to recognise occurrences of a pattern and line shapes). -/
def hasPrefixB : Str → Str → Bool
  | [], _ => true
  | _ :: _, [] => false
  | p :: ps, c :: cs => p == c && hasPrefixB ps cs

/-- `containsSub s pat` decides whether `pat` occurs somewhere in `s`
(Python `pat in s`). -/
def containsSub (s pat : Str) : Bool :=
  s.tails.any fun t => hasPrefixB pat t

/-- Number of positions of `s` at which `pat` occurs (`s.count(pat)` up to
overlap; the patterns counted in this development never overlap
themselves in the texts involved). -/
def countOcc (s pat : Str) : Nat :=
  s.tails.countP fun t => hasPrefixB pat t

/-- Fuel-indexed worker for `pyReplace`; the fuel dominates the length of
the scanned list, so the `0` case is reached only on the empty list. -/
def replaceFuel (new old : Str) : Nat → Str → Str
  | 0, s => s
  | _ + 1, [] => []
  | fuel + 1, c :: cs =>
    if old.isPrefixOf (c :: cs) then
      new ++ replaceFuel new old fuel ((c :: cs).drop old.length)
    else
      c :: replaceFuel new old fuel cs

/-- CPython `s.replace(old, new)`: scan left to right, replacing each
non-overlapping occurrence of `old` by `new`.  (CPython treats an empty
`old` by interleaving `new` everywhere; that case never arises here —
every placeholder is brace-wrapped, hence non-empty — and we return `s`
unchanged for it.) -/
def pyReplace (s old new : Str) : Str :=
  if old.isEmpty then s else replaceFuel new old s.length s

/-- CPython `sep.join(parts)`. -/
def pyJoin (sep : Str) : List Str → Str
  | [] => []
  | [x] => x
  | x :: y :: ys => x ++ sep ++ pyJoin sep (y :: ys)

/-- CPython `s.lower()` (ASCII; every name in this repository is ASCII). -/
def pyLower (s : Str) : Str := s.map Char.toLower

/-- Worker for `pyTitle`: the flag records whether the previous character
was alphabetic. -/
def titleGo : Bool → Str → Str
  | _, [] => []
  | prevAlpha, c :: cs =>
    (if c.isAlpha then (if prevAlpha then c.toLower else c.toUpper) else c)
      :: titleGo c.isAlpha cs

/-- CPython `s.title()`: the first letter of every maximal alphabetic run
is upper-cased, the rest lower-cased; non-letters (including `_`) are
kept and act as word boundaries.  So `"user_service".title()` is
`"User_Service"`. -/
def pyTitle (s : Str) : Str := titleGo false s

/-- CPython `s.capitalize()`: first character upper-cased, the rest
lower-cased. -/
def pyCapitalize : Str → Str
  | [] => []
  | c :: cs => c.toUpper :: cs.map Char.toLower

/-- Worker for `pySplit` carrying the reversed current chunk. -/
def pySplitGo (sep : Char) : Str → Str → List Str
  | acc, [] => [acc.reverse]
  | acc, c :: cs =>
    if c = sep then acc.reverse :: pySplitGo sep [] cs
    else pySplitGo sep (c :: acc) cs

/-- CPython `s.split(sep)` for a one-character separator. -/
def pySplit (sep : Char) (s : Str) : List Str := pySplitGo sep [] s

/-! ## `TestGenerator` — src/test_automation/test_generator.py

The template store `self.templates` (a dict filled by
`register_template`) is modelled as an association list in registration
order; a test specification dict is likewise a key/value list in
insertion order (none of the stores built in this development registers
the same key twice, so first-match lookup agrees with dict lookup). -/

/-- Dict lookup on an association list. -/
def lookupKey (k : Str) : List (Str × Str) → Option Str
  | [] => none
  | kv :: rest => if kv.fst = k then some kv.snd else lookupKey k rest

/-- The placeholder-filling loop of `TestGenerator.generate_test`
(lines 52–58): sequential whole-string `str.replace` of `"{" + key + "}"`
by `str(value)`, in the insertion order of the spec dict. -/
def fill_spec (template : Str) (test_spec : List (Str × Str)) : Str :=
  test_spec.foldl
    (fun acc kv => pyReplace acc ("\x7b".data ++ kv.fst ++ "\x7d".data) kv.snd)
    template

/-- `TestGenerator.generate_test` (lines 38–60): raises `ValueError`
(modelled as `.error`) only when the template name is not registered;
otherwise fills the template and returns it. -/
def generate_test (templates : List (Str × Str)) (template_name : Str)
    (test_spec : List (Str × Str)) : Except Str Str :=
  match lookupKey template_name templates with
  | none => .error ("Template \x27".data ++ template_name ++ "\x27 not found".data)
  | some template => .ok (fill_spec template test_spec)

/-- The `suite_header` f-string of `generate_test_suite` (lines 81–88),
with the `datetime.now().strftime("%Y-%m-%d %H:%M:%S")` value passed in
as `now`. -/
def suite_header (suite_name now : Str) : Str :=
  "\"\"\"\n".data ++ suite_name ++ "\nAuto-generated on ".data ++ now
    ++ "\n\"\"\"\n\nimport unittest\n\n".data

/-- The `suite_footer` literal of `generate_test_suite` (lines 90–94). -/
def suite_footer : Str :=
  "\n\nif __name__ == \x27__main__\x27:\n    unittest.main()\n".data

/-- The `for spec in test_specs` loop of `generate_test_suite`
(lines 75–79): renders every spec in input order, a raised `ValueError`
propagating out of the loop (there is no per-spec error recording). -/
def renderAll (templates : List (Str × Str)) (template_name : Str) :
    List (List (Str × Str)) → Except Str (List Str)
  | [] => .ok []
  | s :: rest =>
    match generate_test templates template_name s with
    | .error e => .error e
    | .ok code =>
      match renderAll templates template_name rest with
      | .error e => .error e
      | .ok codes => .ok (code :: codes)

/-- `TestGenerator.generate_test_suite` (lines 62–98): renders every spec
through `generate_test` in input order, then concatenates
header, `"\n\n"`-joined blocks, and footer. -/
def generate_test_suite (templates : List (Str × Str)) (template_name : Str)
    (test_specs : List (List (Str × Str))) (suite_name now : Str) :
    Except Str Str :=
  match renderAll templates template_name test_specs with
  | .error e => .error e
  | .ok generated_tests =>
      .ok (suite_header suite_name now
            ++ pyJoin ("\n\n".data) generated_tests ++ suite_footer)

/-- The `UNIT_TEST_TEMPLATE` literal (lines 119–133), with its
trailing-whitespace lines kept byte-exact. -/
def UNIT_TEST_TEMPLATE : Str :=
  ("class Test\x7bclass_name\x7d(unittest.TestCase):\n    \"\"\"Test cases for \x7bclass_name\x7d\"\"\"\n    \n    def test_\x7btest_name\x7d(self):\n        \"\"\"Test \x7btest_description\x7d\"\"\"\n        # Arrange\n        \x7bsetup_code\x7d\n        \n        # Act\n        \x7baction_code\x7d\n        \n        # Assert\n        \x7bassertion_code\x7d").data

/-! ## CLI output-name derivation — src/generate_tests.py (lines 121–128) -/

/-- Tail worker of the `re.sub(r"(?<!^)(?=[A-Z])", "_", class_name)` step:
an underscore is inserted before every upper-case letter. -/
def camelGo : Str → Str
  | [] => []
  | c :: cs => (if c.isUpper then ['_', c] else [c]) ++ camelGo cs

/-- `re.sub(r"(?<!^)(?=[A-Z])", "_", class_name)`: an underscore before
every upper-case letter except at position 0. -/
def camelSub : Str → Str
  | [] => []
  | c :: cs => c :: camelGo cs

/-- `snake_case` of generate_tests.py line 126: the `re.sub` above
followed by `.lower()`. -/
def snake_case (class_name : Str) : Str := pyLower (camelSub class_name)

/-- `output_filename` of generate_tests.py line 127:
`f"{snake_case}.py"`.  (`save_test_file` then joins it to the output
directory unchanged; no other file-name derivation exists under src/.) -/
def output_filename (class_name : Str) : Str :=
  snake_case class_name ++ ".py".data

/-! ## `TestCodeGenerator` — src/test_automation_generator.py

`TestFramework` and `TestType` are the source's enums; `TestConfig` keeps
the source's field names.  Each `_generate_*` method builds a `code_lines`
list and returns `"\n".join(code_lines)`; the embedding keeps the line
list as a separate definition so line-level properties can be stated. -/

inductive TestFramework where
  | pytest
  | unittest
  | jest
  | junit
deriving DecidableEq

inductive TestType where
  | unit
  | integration
  | e2e
  | api
deriving DecidableEq

/-- The `.value` string of the `TestType` enum. -/
def TestType.value : TestType → Str
  | .unit => "unit".data
  | .integration => "integration".data
  | .e2e => "e2e".data
  | .api => "api".data

structure TestConfig where
  framework : TestFramework
  test_type : TestType
  test_name : Str
  module_path : Str
  include_fixtures : Bool
  include_mocks : Bool
  include_parametrize : Bool

/-- The `imports` list of `_generate_pytest` (lines 62–66). -/
def pytest_imports (c : TestConfig) : List Str :=
  ["import pytest".data]
    ++ (if c.include_mocks
        then ["from unittest.mock import Mock, patch, MagicMock".data] else [])
    ++ ["from ".data ++ c.module_path ++ " import *".data]

/-- The fixture block of `_generate_pytest` (lines 79–89). -/
def pytest_fixture_lines : List Str :=
  ["@pytest.fixture".data,
   "def sample_fixture():".data,
   "    \"\"\"Fixture for test setup\"\"\"".data,
   "    # Setup code here".data,
   ("    data = \x7b\x27key\x27: \x27value\x27\x7d").data,
   "    yield data".data,
   "    # Teardown code here".data,
   "".data,
   "".data]

/-- The parametrized block of `_generate_pytest` (lines 112–125). -/
def pytest_param_lines (test_name : Str) : List Str :=
  ["".data,
   "@pytest.mark.parametrize(\"input_val,expected\", [".data,
   "    (1, 1),".data,
   "    (2, 2),".data,
   "    (3, 3),".data,
   "])".data,
   "def test_".data ++ test_name ++ "_parametrized(input_val, expected):".data,
   "    \"\"\"Parametrized test for ".data ++ test_name ++ "\"\"\"".data,
   "    # Test logic here".data,
   "    assert input_val == expected".data,
   "".data]

/-- The API block of `_generate_pytest` (lines 127–142). -/
def pytest_api_lines (test_name : Str) : List Str :=
  ["".data,
   "def test_".data ++ test_name ++ "_api_call():".data,
   "    \"\"\"Test API call for ".data ++ test_name ++ "\"\"\"".data,
   "    # Mock API response".data,
   ("    with patch(\x27requests.get\x27) as mock_get:").data,
   "        mock_get.return_value.status_code = 200".data,
   ("        mock_get.return_value.json.return_value = \x7b\x27success\x27: True\x7d").data,
   "        ".data,
   "        # Call API".data,
   "        # response = api_function()".data,
   "        ".data,
   "        # Assertions".data,
   "        mock_get.assert_called_once()".data,
   "".data]

/-- The initial `code_lines` of `_generate_pytest` (lines 68–77). -/
def pytest_header_lines (c : TestConfig) : List Str :=
  ["\"\"\"".data,
   "Test module for ".data ++ c.module_path,
   "Test Type: ".data ++ c.test_type.value,
   "\"\"\"".data,
   "".data,
   pyJoin ("\n".data) (pytest_imports c),
   "".data,
   "".data]

/-- The basic-test block of `_generate_pytest` (lines 91–110), with
`test_func = "test_" + test_name` and the fixture parameter present
exactly when `include_fixtures` is. -/
def pytest_member_lines (c : TestConfig) : List Str :=
  ["def test_".data ++ c.test_name ++ "(".data
     ++ (if c.include_fixtures then "sample_fixture".data else "".data)
     ++ "):".data,
   "    \"\"\"Test ".data ++ c.test_name ++ "\"\"\"".data,
   "    # Arrange".data,
   "    expected = None".data,
   "    ".data,
   "    # Act".data,
   "    result = None".data,
   "    ".data,
   "    # Assert".data,
   "    assert result == expected".data,
   "".data]

/-- The `code_lines` list of `_generate_pytest` (lines 60–145): header,
conditional fixture block, the basic test, conditional parametrized
block, conditional API block — in the order of the source's
`code_lines.extend` calls. -/
def pytest_code_lines (c : TestConfig) : List Str :=
  pytest_header_lines c
  ++ (if c.include_fixtures then pytest_fixture_lines else [])
  ++ pytest_member_lines c
  ++ (if c.include_parametrize then pytest_param_lines c.test_name else [])
  ++ (if c.test_type = TestType.api then pytest_api_lines c.test_name else [])

/-- The `imports` list of `_generate_unittest` (lines 149–153). -/
def unittest_imports (c : TestConfig) : List Str :=
  ["import unittest".data]
    ++ (if c.include_mocks
        then ["from unittest.mock import Mock, patch, MagicMock".data] else [])
    ++ ["from ".data ++ c.module_path ++ " import *".data]

/-- The API block of `_generate_unittest` (lines 184–199). -/
def unittest_api_lines (test_name : Str) : List Str :=
  [("    @patch(\x27requests.get\x27)").data,
   "    def test_".data ++ test_name ++ "_api_call(self, mock_get):".data,
   "        \"\"\"Test API call for ".data ++ test_name ++ "\"\"\"".data,
   "        # Setup mock".data,
   "        mock_get.return_value.status_code = 200".data,
   ("        mock_get.return_value.json.return_value = \x7b\x27success\x27: True\x7d").data,
   "        ".data,
   "        # Call API".data,
   "        # response = api_function()".data,
   "        ".data,
   "        # Assertions".data,
   "        mock_get.assert_called_once()".data,
   "        self.assertEqual(mock_get.return_value.status_code, 200)".data,
   "".data]

/-- The `code_lines` list of `_generate_unittest` (lines 155–206).  The
suite class is named `Test` + `test_name.title()`; the fixture block
(`setUp`/`tearDown`) is unconditional, and `include_parametrize` is never
consulted. -/
def unittest_code_lines (c : TestConfig) : List Str :=
  ["\"\"\"".data,
   "Test module for ".data ++ c.module_path,
   "Test Type: ".data ++ c.test_type.value,
   "\"\"\"".data,
   "".data,
   pyJoin ("\n".data) (unittest_imports c),
   "".data,
   "".data,
   "class Test".data ++ pyTitle c.test_name ++ "(unittest.TestCase):".data,
   "    \"\"\"Test cases for ".data ++ c.test_name ++ "\"\"\"".data,
   "".data,
   "    def setUp(self):".data,
   "        \"\"\"Set up test fixtures\"\"\"".data,
   ("        self.test_data = \x7b\x27key\x27: \x27value\x27\x7d").data,
   "".data,
   "    def tearDown(self):".data,
   "        \"\"\"Tear down test fixtures\"\"\"".data,
   "        pass".data,
   "".data,
   "    def test_".data ++ c.test_name ++ "(self):".data,
   "        \"\"\"Test ".data ++ c.test_name ++ "\"\"\"".data,
   "        # Arrange".data,
   "        expected = None".data,
   "        ".data,
   "        # Act".data,
   "        result = None".data,
   "        ".data,
   "        # Assert".data,
   "        self.assertEqual(result, expected)".data,
   "".data]
  ++ (if c.test_type = TestType.api then unittest_api_lines c.test_name else [])
  ++ ["".data,
      ("if __name__ == \x27__main__\x27:").data,
      "    unittest.main()".data]

/-- The fixture block of `_generate_jest` (lines 224–236). -/
def jest_fixture_lines : List Str :=
  ["let testData;".data,
   "".data,
   "beforeEach(() => \x7b".data,
   "  // Setup before each test".data,
   ("  testData = \x7b key: \x27value\x27 \x7d;").data,
   "\x7d);".data,
   "".data,
   "afterEach(() => \x7b".data,
   "  // Cleanup after each test".data,
   "\x7d);".data,
   "".data]

/-- The parametrized block of `_generate_jest` (lines 253–263): a
`test.each` table of pairs, but the test label is the literal
`should handle input %i and return %i` — no `_parametrized` suffix. -/
def jest_param_lines : List Str :=
  ["".data,
   "  test.each([".data,
   "    [1, 1],".data,
   "    [2, 2],".data,
   "    [3, 3],".data,
   ("  ])(\x27should handle input %i and return %i\x27, (input, expected) => \x7b").data,
   "    // Test logic here".data,
   "    expect(input).toBe(expected);".data,
   "  \x7d);".data]

/-- The API block of `_generate_jest` (lines 265–284). -/
def jest_api_lines : List Str :=
  ["".data,
   ("  test(\x27should make API call\x27, async () => \x7b").data,
   "    // Mock fetch".data,
   "    global.fetch = jest.fn(() =>".data,
   "      Promise.resolve(\x7b".data,
   "        status: 200,".data,
   "        json: () => Promise.resolve(\x7b success: true \x7d),".data,
   "      \x7d)".data,
   "    );".data,
   "    ".data,
   "    // Call API".data,
   "    // const response = await apiFunction();".data,
   "    ".data,
   "    // Assertions".data,
   "    expect(fetch).toHaveBeenCalledTimes(1);".data,
   "  \x7d);".data]

/-- The initial `code_lines` of `_generate_jest` (lines 210–219). -/
def jest_header_lines (c : TestConfig) : List Str :=
  ["/**".data,
   " * Test module for ".data ++ c.module_path,
   " * Test Type: ".data ++ c.test_type.value,
   " */".data,
   "".data,
   pyJoin ("\n".data)
     [("const \x7b /* imports */ \x7d = require(\x27").data
        ++ c.module_path ++ ("\x27);").data],
   "".data]

/-- The `describe` block with the basic test of `_generate_jest`
(lines 238–250). -/
def jest_describe_lines (c : TestConfig) : List Str :=
  [("describe(\x27").data ++ c.test_name ++ ("\x27, () => \x7b").data,
   ("  test(\x27should ").data ++ c.test_name ++ ("\x27, () => \x7b").data,
   "    // Arrange".data,
   "    const expected = null;".data,
   "    ".data,
   "    // Act".data,
   "    const result = null;".data,
   "    ".data,
   "    // Assert".data,
   "    expect(result).toBe(expected);".data,
   "  \x7d);".data]

/-- The `code_lines` list of `_generate_jest` (lines 208–288), in the
order of the source's `code_lines.extend`/`append` calls. -/
def jest_code_lines (c : TestConfig) : List Str :=
  jest_header_lines c
  ++ (if c.include_fixtures then jest_fixture_lines else [])
  ++ jest_describe_lines c
  ++ (if c.include_parametrize then jest_param_lines else [])
  ++ (if c.test_type = TestType.api then jest_api_lines else [])
  ++ ["\x7d);".data]

/-- The fixture block of `_generate_junit` (lines 319–333). -/
def junit_fixture_lines : List Str :=
  ["    private Object testData;".data,
   "".data,
   "    @BeforeEach".data,
   "    public void setUp() \x7b".data,
   "        // Setup before each test".data,
   "        testData = new Object();".data,
   "    \x7d".data,
   "".data,
   "    @AfterEach".data,
   "    public void tearDown() \x7b".data,
   "        // Cleanup after each test".data,
   "    \x7d".data,
   "".data]

/-- The parametrized block of `_generate_junit` (lines 352–360): a
`@ValueSource` of the single ints 1, 2, 3 — not (input, expected) pairs —
and the method-name suffix is `Parametrized`, not `_parametrized`. -/
def junit_param_lines (test_name : Str) : List Str :=
  ["".data,
   "    @ParameterizedTest".data,
   "    @ValueSource(ints = \x7b1, 2, 3\x7d)".data,
   "    public void test".data ++ pyTitle test_name
     ++ "Parametrized(int input) \x7b".data,
   "        // Parametrized test logic".data,
   "        assertTrue(input > 0);".data,
   "    \x7d".data]

/-- The API block of `_generate_junit` (lines 362–372). -/
def junit_api_lines (test_name : Str) : List Str :=
  ["".data,
   "    @Test".data,
   "    public void test".data ++ pyTitle test_name ++ "ApiCall() \x7b".data,
   "        // Mock API call".data,
   "        // Setup mock response".data,
   "        // Call API".data,
   "        // Assertions".data,
   "        // verify(mockObject).method();".data,
   "    \x7d".data]

/-- The initial `code_lines` of `_generate_junit` (lines 294–303). -/
def junit_header_lines (c : TestConfig) : List Str :=
  ["/**".data,
   " * Test class for ".data ++ c.module_path,
   " * Test Type: ".data ++ c.test_type.value,
   " */".data,
   "".data,
   "import ".data ++ c.module_path ++ ".*;".data,
   "import org.junit.jupiter.api.*;".data,
   "import static org.junit.jupiter.api.Assertions.*;".data]

/-- The Mockito imports of `_generate_junit` (lines 305–310). -/
def junit_mock_imports : List Str :=
  ["import org.mockito.Mock;".data,
   "import org.mockito.MockitoAnnotations;".data,
   "import static org.mockito.Mockito.*;".data]

/-- The class opening of `_generate_junit` (lines 312–316), named
`Test` + `test_name.title()` (a `Test` prefix, not the `<Subject>Test`
suffix convention). -/
def junit_class_open (c : TestConfig) : List Str :=
  ["".data,
   "public class Test".data ++ pyTitle c.test_name ++ " \x7b".data,
   "".data]

/-- The basic-test block of `_generate_junit` (lines 335–350). -/
def junit_test_lines (c : TestConfig) : List Str :=
  ["    @Test".data,
   "    public void test".data ++ pyTitle c.test_name ++ "() \x7b".data,
   "        // Test ".data ++ c.test_name,
   "        // Arrange".data,
   "        Object expected = null;".data,
   "        ".data,
   "        // Act".data,
   "        Object result = null;".data,
   "        ".data,
   "        // Assert".data,
   "        assertEquals(expected, result);".data,
   "    \x7d".data]

/-- The `code_lines` list of `_generate_junit` (lines 290–376), in the
order of the source's `code_lines.extend` calls. -/
def junit_code_lines (c : TestConfig) : List Str :=
  junit_header_lines c
  ++ (if c.include_mocks then junit_mock_imports else [])
  ++ junit_class_open c
  ++ (if c.include_fixtures then junit_fixture_lines else [])
  ++ junit_test_lines c
  ++ (if c.include_parametrize then junit_param_lines c.test_name else [])
  ++ (if c.test_type = TestType.api then junit_api_lines c.test_name else [])
  ++ ["\x7d".data]

/-- `TestCodeGenerator.generate` (lines 55–60): dispatch through
`template_map`, which maps all four `TestFramework` values, so with the
enum closed the `Unsupported framework` raise is unreachable and the
function is total. -/
def TestCodeGenerator.generate (c : TestConfig) : Str :=
  match c.framework with
  | .pytest => pyJoin ("\n".data) (pytest_code_lines c)
  | .unittest => pyJoin ("\n".data) (unittest_code_lines c)
  | .jest => pyJoin ("\n".data) (jest_code_lines c)
  | .junit => pyJoin ("\n".data) (junit_code_lines c)

/-! ## `TestCodeGenerator` — src/test_generator.py

This variant accepts only `pytest` and `unittest` and raises `ValueError`
at construction for anything else (lines 28–37); its unittest renderer
builds the suite-class name by capitalising and joining the
underscore-separated words of the function name (lines 141–146). -/

/-- `TestCodeGenerator.__init__` of src/test_generator.py (lines 28–37):
lower-cases the identifier, stores it if it is `pytest` or `unittest`,
and raises `ValueError` otherwise. -/
def framework_init (framework : Str) : Except Str Str :=
  let f := pyLower framework
  if f = "pytest".data ∨ f = "unittest".data then .ok f
  else .error ("Framework must be \x27pytest\x27 or \x27unittest\x27".data)

/-- The class-name computation of `_generate_unittest_function`
(src/test_generator.py line 141):
`"".join(word.capitalize() for word in func_name.split("_"))`. -/
def unittest_function_class_name (func_name : Str) : Str :=
  ((pySplit '_' func_name).map pyCapitalize).flatten

/-- The suite-class declaration line emitted by
`_generate_unittest_function` (src/test_generator.py line 145):
`class Test{class_name}(unittest.TestCase):`. -/
def unittest_function_class_line (func_name : Str) : Str :=
  "class Test".data ++ unittest_function_class_name func_name
    ++ "(unittest.TestCase):".data

/-! ## `TestCodeGenerator` — src/test_automation.py

`__init__` stores any framework string unvalidated.
`generate_function_test` (lines 27–88) appends code lines only inside its
`if framework == "pytest"` / `elif framework == "unittest"` branches, so
for any other identifier it falls through both branches and returns the
empty join of an empty list — no exception, no default framework.
Python values appearing in test cases are modelled by `PyScalar`
(`repr` of nested containers is not needed by any claim; `repr` of a
string is modelled without CPython's quote-selection and escaping, which
none of the inputs used here trigger). -/

inductive PyScalar where
  | none
  | int (n : Int)
  | str (s : Str)
  | boolean (b : Bool)

/-- CPython `repr` on the scalar values used in test cases. -/
def pyRepr : PyScalar → Str
  | .none => "None".data
  | .int n => (toString n).data
  | .str s => "\x27".data ++ s ++ "\x27".data
  | .boolean true => "True".data
  | .boolean false => "False".data

/-- The `inputs` entry of a test-case dict: either a dict (rendered as
keyword arguments) or a plain value (rendered by `repr`). -/
inductive PyInputs where
  | dict (entries : List (Str × PyScalar))
  | plain (v : PyScalar)

/-- One entry of the `test_cases` list passed to
`generate_function_test`: the dict `{"inputs": ..., "expected": ...}`
after the `.get` calls with their defaults. -/
structure TACase where
  inputs : PyInputs
  expected : PyScalar

/-- The parameter string built at src/test_automation.py lines 55–59 and
76–80: keyword arguments for a dict input, `repr` otherwise. -/
def paramsOf : PyInputs → Str
  | .dict entries =>
      pyJoin (", ".data)
        (entries.map fun kv => kv.fst ++ "=".data ++ pyRepr kv.snd)
  | .plain v => pyRepr v

/-- Decimal rendering of a 1-based index (`idx + 1` in the source). -/
def natStr (n : Nat) : Str := (toString n).data

/-- The pytest block for one test case (src/test_automation.py
lines 48–62). -/
def ta_pytest_case (func_name : Str) (idx : Nat) (tc : TACase) : Str :=
  "def test_".data ++ func_name ++ "_".data ++ natStr (idx + 1)
    ++ "():\n".data
  ++ "    result = ".data ++ func_name ++ "(".data ++ paramsOf tc.inputs
    ++ ")\n".data
  ++ "    assert result == ".data ++ pyRepr tc.expected ++ "\n\n".data

/-- The unittest block for one test case (src/test_automation.py
lines 69–85). -/
def ta_unittest_case (func_name : Str) (idx : Nat) (tc : TACase) : Str :=
  "    def test_".data ++ func_name ++ "_".data ++ natStr (idx + 1)
    ++ "(self):\n".data
  ++ "        result = ".data ++ func_name ++ "(".data ++ paramsOf tc.inputs
    ++ ")\n".data
  ++ "        self.assertEqual(result, ".data ++ pyRepr tc.expected
    ++ ")\n\n".data

/-- `TestCodeGenerator.generate_function_test` (src/test_automation.py
lines 27–88), with `func.__module__` and `func.__name__` passed in as
strings.  For a framework identifier other than `pytest` or `unittest`
(compared exactly, case-sensitively) both branches are skipped and the
result is the empty string. -/
def generate_function_test (test_framework func_module func_name : Str)
    (test_cases : List TACase) : Str :=
  if test_framework = "pytest".data then
    "import pytest\n".data
    ++ "from ".data ++ func_module ++ " import ".data ++ func_name
      ++ "\n\n".data
    ++ (test_cases.enum.map fun it =>
          ta_pytest_case func_name it.fst it.snd).flatten
  else if test_framework = "unittest".data then
    "import unittest\n".data
    ++ "from ".data ++ func_module ++ " import ".data ++ func_name
      ++ "\n\n".data
    ++ "class Test".data ++ pyTitle func_name
      ++ "(unittest.TestCase):\n\n".data
    ++ (test_cases.enum.map fun it =>
          ta_unittest_case func_name it.fst it.snd).flatten
  else []

/-! ## JSON specification parsing and the missing `generate_test_class`

`src/generate_tests.py` (the CLI) loads a JSON object, extracts
`class_name` (default `"GeneratedTest"`) and `test_cases` (default `[]`)
— lines 99–101 — and renders through
`TestGenerator.generate_test_class`, imported from a module
`test_generator` that defines `TestGenerator`, `PytestGenerator`,
`create_generator`, …  That module is not present under src/ (only its
callers and its unit tests are), so the renderer itself is modelled from
the spec below. -/

/-- A parsed JSON value, restricted to the shapes the specification file
format uses (strings, arrays, objects). -/
inductive JVal where
  | jstr (s : Str)
  | jarr (elems : List JVal)
  | jobj (fields : List (Str × JVal))

/-- `dict.get(key, default)` on a JSON object's fields. -/
def jGet (fields : List (Str × JVal)) (k : Str) (d : JVal) : JVal :=
  match fields with
  | [] => d
  | kv :: rest => if kv.fst = k then kv.snd else jGet rest k d

/-- `dict.get(key)` (no default) on a JSON object's fields. -/
def jGetOpt (fields : List (Str × JVal)) (k : Str) : Option JVal :=
  match fields with
  | [] => Option.none
  | kv :: rest => if kv.fst = k then some kv.snd else jGetOpt rest k

/-- Coerce a JSON value expected to be a string. -/
def asStr : JVal → Str
  | .jstr s => s
  | _ => []

/-- Coerce a JSON value expected to be an array. -/
def asArr : JVal → List JVal
  | .jarr xs => xs
  | _ => []

/-- One member of a specification as described by the JSON file format
(spec §6): `{"name", "description"?, "setup"?, "assertions"?,
"teardown"?}`; unknown extra fields are ignored. -/
structure JTestCase where
  name : Str
  description : Option Str
  setup : Option Str
  assertions : List Str
  teardown : Option Str

/-- Extraction of one `test_cases` entry from its JSON object, per the
JSON file format of spec §6 (optional fields absent ↦ `none`). -/
def parseCase (v : JVal) : JTestCase :=
  match v with
  | .jobj fs =>
      { name := asStr (jGet fs ("name".data) (.jstr []))
        description := (jGetOpt fs ("description".data)).map asStr
        setup := (jGetOpt fs ("setup".data)).map asStr
        assertions := (asArr (jGet fs ("assertions".data) (.jarr []))).map asStr
        teardown := (jGetOpt fs ("teardown".data)).map asStr }
  | _ => { name := [], description := Option.none, setup := Option.none,
           assertions := [], teardown := Option.none }

/-- The field extraction of `generate_tests.py` `main` (lines 99–101):
`spec.get("class_name", "GeneratedTest")` and
`spec.get("test_cases", [])`. -/
def parse_spec (v : JVal) : Str × List JTestCase :=
  match v with
  | .jobj fs =>
      (asStr (jGet fs ("class_name".data) (.jstr ("GeneratedTest".data))),
       (asArr (jGet fs ("test_cases".data) (.jarr []))).map parseCase)
  | _ => ("GeneratedTest".data, [])

/-- One member's test block in the modelled pytest-like renderer: spec
§4.3 step 5 — name `test_<member>`, setup verbatim, body lines verbatim
(one per line), a placeholder assertion when the body is empty, teardown
verbatim. -/
def renderCaseBlock (tc : JTestCase) : Str :=
  "    def test_".data ++ tc.name ++ "(self):\n".data
  ++ (match tc.description with
      | some d => "        \"\"\"".data ++ d ++ "\"\"\"\n".data
      | Option.none => [])
  ++ (match tc.setup with
      | some s => "        ".data ++ s ++ "\n".data
      | Option.none => [])
  ++ (if tc.assertions.isEmpty then
        "        assert True  # TODO: not yet implemented\n".data
      else (tc.assertions.map fun a => "        ".data ++ a ++ "\n".data).flatten)
  ++ (match tc.teardown with
      | some t => "        ".data ++ t ++ "\n".data
      | Option.none => [])
  ++ "\n".data

/-- Modelled from the spec: `TestGenerator.generate_test_class` of the
module `test_generator` imported by `src/generate_tests.py`, whose
defining file is not under src/ (only its callers — generate_tests.py,
demo.py, examples.py — and its unit tests, test_test_generator.py, are).
Follows the spec §4.3 pytest-like skeleton: import header, a class-shaped
suite container named from the subject, and one `def test_<member>` block
per member with its snippets inserted verbatim. -/
def generate_test_class (class_name : Str) (test_cases : List JTestCase) :
    Str :=
  "import pytest\n\n\nclass ".data ++ class_name ++ ":\n".data
  ++ (test_cases.map renderCaseBlock).flatten

/-! ## Concrete fixtures

Inputs used by the concrete theorems below.  `demoTemplates` and the
`spec*` dicts replay the example usage in
src/test_automation/test_generator.py `main` (whose committed output is
src/test_automation/generated_tests/test_calculator.py). -/

/-- Extract the success value of a rendering (empty string on error). -/
def okStr : Except Str Str → Str
  | .ok s => s
  | .error _ => []

/-- A template store with the `unit_test` template registered. -/
def demoTemplates : List (Str × Str) :=
  [("unit_test".data, UNIT_TEST_TEMPLATE)]

/-- A spec dict whose member name is `add`. -/
def specAdd : List (Str × Str) :=
  [("class_name".data, "Calculator".data),
   ("test_name".data, "add".data),
   ("test_description".data, "addition".data),
   ("setup_code".data, "calc = Calculator()".data),
   ("action_code".data, "result = calc.add(2, 3)".data),
   ("assertion_code".data, "self.assertEqual(result, 5)".data)]

/-- A second spec dict with the same member name `add` (a duplicate). -/
def specAddDup : List (Str × Str) :=
  [("class_name".data, "Calculator".data),
   ("test_name".data, "add".data),
   ("test_description".data, "addition again".data),
   ("setup_code".data, "calc = Calculator()".data),
   ("action_code".data, "result = calc.add(1, 1)".data),
   ("assertion_code".data, "self.assertEqual(result, 2)".data)]

/-- A spec dict whose member name is `mul`. -/
def specMul : List (Str × Str) :=
  [("class_name".data, "Calculator".data),
   ("test_name".data, "mul".data),
   ("test_description".data, "multiplication".data),
   ("setup_code".data, "calc = Calculator()".data),
   ("action_code".data, "result = calc.mul(2, 3)".data),
   ("assertion_code".data, "self.assertEqual(result, 6)".data)]

/-- A pytest configuration of API test type with `include_parametrize`
off: one member (`foo`). -/
def cfgPytestApi : TestConfig :=
  { framework := .pytest, test_type := .api, test_name := "foo".data,
    module_path := "mymod".data, include_fixtures := false,
    include_mocks := false, include_parametrize := false }

/-- A JUnit configuration for subject `user_service`. -/
def cfgJunitUS : TestConfig :=
  { framework := .junit, test_type := .unit,
    test_name := "user_service".data, module_path := "mymod".data,
    include_fixtures := false, include_mocks := false,
    include_parametrize := false }

/-- A unittest configuration for subject `user_service`. -/
def cfgUnittestUS : TestConfig :=
  { framework := .unittest, test_type := .unit,
    test_name := "user_service".data, module_path := "mymod".data,
    include_fixtures := false, include_mocks := false,
    include_parametrize := false }

/-- A JUnit configuration with `include_parametrize` on. -/
def cfgJunitParam : TestConfig :=
  { framework := .junit, test_type := .unit, test_name := "foo".data,
    module_path := "mymod".data, include_fixtures := true,
    include_mocks := true, include_parametrize := true }

/-- A Jest configuration with `include_parametrize` on. -/
def cfgJestParam : TestConfig :=
  { framework := .jest, test_type := .unit, test_name := "foo".data,
    module_path := "mymod".data, include_fixtures := true,
    include_mocks := true, include_parametrize := true }

/-- A unittest configuration with `include_parametrize` on. -/
def cfgUnittestParam : TestConfig :=
  { framework := .unittest, test_type := .unit, test_name := "foo".data,
    module_path := "mymod".data, include_fixtures := true,
    include_mocks := true, include_parametrize := true }

/-- A pytest configuration with `include_parametrize` on (used to
instantiate the parametrize theorem at a concrete input). -/
def cfgPytestParam : TestConfig :=
  { framework := .pytest, test_type := .unit, test_name := "foo".data,
    module_path := "mymod".data, include_fixtures := true,
    include_mocks := true, include_parametrize := true }

/-- The parsed form of the JSON specification file
`{"class_name": "Calculator", "test_cases":
[{"name": "add", "assertions": ["assert add(2,3)==5"]}]}`. -/
def jsonCalc : JVal :=
  .jobj [("class_name".data, .jstr ("Calculator".data)),
         ("test_cases".data,
          .jarr [.jobj [("name".data, .jstr ("add".data)),
                        ("assertions".data,
                         .jarr [.jstr ("assert add(2,3)==5".data)])]])]

/-! ## Helper lemmas -/

/-- With a registered template, the render loop succeeds on every batch,
producing one filled block per spec, in input order. -/
theorem renderAll_ok (templates : List (Str × Str)) (tn tmpl : Str)
    (h : lookupKey tn templates = some tmpl) :
    ∀ specs, renderAll templates tn specs = .ok (specs.map (fill_spec tmpl)) := by
  intro specs
  induction specs with
  | nil => rfl
  | cons s rest ih => simp [renderAll, generate_test, h, ih]

/-- `pyJoin` of a list with a non-empty head is non-empty. -/
theorem pyJoin_cons_ne_nil (sep a : Str) (ls : List Str) (ha : a ≠ []) :
    pyJoin sep (a :: ls) ≠ [] := by
  cases ls with
  | nil => simpa [pyJoin] using ha
  | cons b bs => simp [pyJoin, List.append_eq_nil, ha]

/-! ## Claim theorems -/

/-- Claim C10 (confirmed).  `TestGenerator.generate_test` fails only for
an unregistered template name; for a registered one it fills the template
by sequential whole-string `str.replace` in the spec dict's insertion
order (`fill_spec`).  The two concrete conjuncts exhibit the announced
quirks of that scheme: a value containing a later key's placeholder is
substituted again (template `{a}` with spec `a ↦ "{b}", b ↦ "X"` yields
`X`), and a placeholder matching no key is left verbatim. -/
theorem c10_generate_test_semantics :
    (∀ T tn s, lookupKey tn T = none →
       generate_test T tn s =
         .error ("Template \x27".data ++ tn ++ "\x27 not found".data)) ∧
    (∀ T tn tmpl s, lookupKey tn T = some tmpl →
       generate_test T tn s = .ok (fill_spec tmpl s)) ∧
    fill_spec ("\x7ba\x7d".data)
        [("a".data, "\x7bb\x7d".data), ("b".data, "X".data)] = "X".data ∧
    fill_spec ("\x7bmissing\x7d".data) [("a".data, "v".data)]
        = "\x7bmissing\x7d".data := by
  refine ⟨?_, ?_, by decide, by decide⟩
  · intro T tn s h; simp [generate_test, h]
  · intro T tn tmpl s h; simp [generate_test, h]

/-- Witness for C10: the template store with `unit_test` registered
renders `specAdd` successfully, and lookup in an empty store fails with
the `Template ... not found` error. -/
theorem c10_witness :
    generate_test demoTemplates ("unit_test".data) specAdd
      = .ok (fill_spec UNIT_TEST_TEMPLATE specAdd) ∧
    generate_test [] ("t".data) []
      = .error ("Template \x27".data ++ "t".data ++ "\x27 not found".data) := by
  exact ⟨c10_generate_test_semantics.2.1 _ _ _ _ (by rfl),
         c10_generate_test_semantics.1 _ _ _ (by rfl)⟩

/-- Claim C4 counterexample.  A specification whose two members are both
named `add` does not fail with `DuplicateMemberName`: `generate_test_suite`
succeeds and the produced suite contains two `def test_add` blocks (and
no validation step exists anywhere on the rendering path). -/
theorem c4_counterexample :
    (generate_test_suite demoTemplates ("unit_test".data)
        [specAdd, specAddDup] ("S".data) ("T".data)).isOk = true ∧
    countOcc
      (okStr (generate_test_suite demoTemplates ("unit_test".data)
        [specAdd, specAddDup] ("S".data) ("T".data)))
      ("def test_add".data) = 2 := by
  exact ⟨by decide, by decide⟩

/-- Claim C4 (corrected).  No duplicate-member validation is performed:
with a registered template, `generate_test_suite` succeeds on every batch,
duplicate member names included. -/
theorem c4_no_duplicate_validation
    (T : List (Str × Str)) (tn tmpl : Str)
    (specs : List (List (Str × Str))) (nm now : Str)
    (h : lookupKey tn T = some tmpl) :
    (generate_test_suite T tn specs nm now).isOk = true := by
  unfold generate_test_suite
  rw [renderAll_ok T tn tmpl h specs]
  rfl

/-- Witness for C4 at the duplicate-name batch. -/
theorem c4_witness :
    (generate_test_suite demoTemplates ("unit_test".data)
        [specAdd, specAddDup] ("Calculator Test Suite".data)
        ("2025-12-29 05:08:05".data)).isOk = true :=
  c4_no_duplicate_validation demoTemplates ("unit_test".data)
    UNIT_TEST_TEMPLATE [specAdd, specAddDup]
    ("Calculator Test Suite".data) ("2025-12-29 05:08:05".data) (by rfl)

/-- Claim C6 counterexample.  In a batch of three specs where the second
duplicates the first member name `add` (the spec calls such a pair
invalid), the generator does not yield two successes plus one recorded
failure: it renders all three pairs into one suite — three `def test_`
blocks, two of them named `test_add` — and reports no failure. -/
theorem c6_counterexample :
    (generate_test_suite demoTemplates ("unit_test".data)
        [specAdd, specAddDup, specMul] ("S".data) ("T".data)).isOk = true ∧
    countOcc
      (okStr (generate_test_suite demoTemplates ("unit_test".data)
        [specAdd, specAddDup, specMul] ("S".data) ("T".data)))
      ("def test_".data) = 3 ∧
    countOcc
      (okStr (generate_test_suite demoTemplates ("unit_test".data)
        [specAdd, specAddDup, specMul] ("S".data) ("T".data)))
      ("def test_add".data) = 2 := by
  exact ⟨by decide, by decide, by decide⟩

/-- Claim C6 (corrected).  The batch loop performs no per-pair validation
or error recording: with a registered template every pair is rendered, in
input order, into one suite; with an unregistered template the whole
batch aborts with the raised error as soon as the first pair is reached,
producing no partial results. -/
theorem c6_batch_no_partial_failure :
    (∀ T tn tmpl specs nm now, lookupKey tn T = some tmpl →
       generate_test_suite T tn specs nm now =
         .ok (suite_header nm now
               ++ pyJoin ("\n\n".data) (specs.map (fill_spec tmpl))
               ++ suite_footer)) ∧
    (∀ T tn nm now s rest, lookupKey tn T = none →
       generate_test_suite T tn (s :: rest) nm now =
         .error ("Template \x27".data ++ tn ++ "\x27 not found".data)) := by
  constructor
  · intro T tn tmpl specs nm now h
    unfold generate_test_suite
    rw [renderAll_ok T tn tmpl h specs]
  · intro T tn nm now s rest h
    unfold generate_test_suite renderAll
    simp [generate_test, h]

/-- Witness for C6: the three-pair batch renders to the header, the three
filled blocks joined in input order, and the footer. -/
theorem c6_witness :
    generate_test_suite demoTemplates ("unit_test".data)
        [specAdd, specAddDup, specMul] ("S".data) ("T".data) =
      .ok (suite_header ("S".data) ("T".data)
            ++ pyJoin ("\n\n".data)
                ([specAdd, specAddDup, specMul].map
                  (fill_spec UNIT_TEST_TEMPLATE))
            ++ suite_footer) :=
  c6_batch_no_partial_failure.1 demoTemplates ("unit_test".data)
    UNIT_TEST_TEMPLATE [specAdd, specAddDup, specMul]
    ("S".data) ("T".data) (by rfl)

/-- Claim C1 counterexample.  `TestGenerator.generate_test_suite` embeds
the wall clock unconditionally — its interface has no field with which a
timestamp could be requested — so two renderings of the same
specification at different instants are not byte-identical, and the
clock value appears in the output. -/
theorem c1_counterexample :
    okStr (generate_test_suite demoTemplates ("unit_test".data) [specAdd]
        ("S".data) ("2025-01-01 00:00:00".data)) ≠
      okStr (generate_test_suite demoTemplates ("unit_test".data) [specAdd]
        ("S".data) ("2025-01-02 00:00:00".data)) ∧
    containsSub
      (okStr (generate_test_suite demoTemplates ("unit_test".data) [specAdd]
        ("S".data) ("2025-01-01 00:00:00".data)))
      ("Auto-generated on 2025-01-01 00:00:00".data) = true := by
  exact ⟨by decide, by decide⟩

/-- Claim C1 (corrected).  Rendering is a pure function of the inputs and
the clock, and the clock value is isolated to the single
`Auto-generated on` header line: two successful renderings of the same
batch differ only in the timestamp slot — both outputs are the fixed
header prefix, then the clock string, then a common remainder that starts
with a newline.  (`TestCodeGenerator.generate` of
test_automation_generator.py reads no clock at all.) -/
theorem c1_timestamp_isolated
    (T : List (Str × Str)) (tn : Str) (specs : List (List (Str × Str)))
    (nm now₁ now₂ out₁ out₂ : Str)
    (h₁ : generate_test_suite T tn specs nm now₁ = .ok out₁)
    (h₂ : generate_test_suite T tn specs nm now₂ = .ok out₂) :
    ∃ rest,
      out₁ = ("\"\"\"\n".data ++ nm ++ "\nAuto-generated on ".data)
               ++ now₁ ++ rest ∧
      out₂ = ("\"\"\"\n".data ++ nm ++ "\nAuto-generated on ".data)
               ++ now₂ ++ rest ∧
      hasPrefixB ("\n".data) rest = true := by
  unfold generate_test_suite at h₁ h₂
  cases hr : renderAll T tn specs with
  | error e =>
      rw [hr] at h₁
      exact absurd h₁ (by simp)
  | ok blocks =>
      rw [hr] at h₁ h₂
      refine ⟨"\n\"\"\"\n\nimport unittest\n\n".data
                ++ pyJoin ("\n\n".data) blocks ++ suite_footer, ?_, ?_, ?_⟩
      · rw [← Except.ok.inj h₁]
        simp [suite_header, List.append_assoc]
      · rw [← Except.ok.inj h₂]
        simp [suite_header, List.append_assoc]
      · rfl

/-- Witness for C1 at a concrete batch and two concrete clock values. -/
theorem c1_witness :
    ∃ rest,
      okStr (generate_test_suite demoTemplates ("unit_test".data) [specAdd]
          ("S".data) ("2025-01-01 00:00:00".data)) =
        ("\"\"\"\n".data ++ "S".data ++ "\nAuto-generated on ".data)
          ++ "2025-01-01 00:00:00".data ++ rest ∧
      okStr (generate_test_suite demoTemplates ("unit_test".data) [specAdd]
          ("S".data) ("2025-01-02 00:00:00".data)) =
        ("\"\"\"\n".data ++ "S".data ++ "\nAuto-generated on ".data)
          ++ "2025-01-02 00:00:00".data ++ rest ∧
      hasPrefixB ("\n".data) rest = true :=
  c1_timestamp_isolated demoTemplates ("unit_test".data) [specAdd]
    ("S".data) ("2025-01-01 00:00:00".data) ("2025-01-02 00:00:00".data)
    _ _ (by rfl) (by rfl)

/-- Claim C2 counterexample.  A structurally valid pytest configuration
with one member (`foo`), `include_parametrize` off and test type `api`
yields two `def test_` blocks, not the one block per member the claim
requires. -/
theorem c2_counterexample :
    (pytest_code_lines cfgPytestApi).countP
        (fun l => hasPrefixB ("def test_".data) l) = 2 ∧
    ¬ (pytest_code_lines cfgPytestApi).countP
        (fun l => hasPrefixB ("def test_".data) l) = 1 := by
  exact ⟨by decide, by decide⟩

/-- Claim C2 (corrected).  `TestCodeGenerator.generate` is total and its
output is never empty; the pytest renderer emits exactly one member test
block, plus one when `include_parametrize` is set, plus one more when the
test type is `api`; the unittest renderer emits one member test block
plus one for the `api` test type and ignores `include_parametrize`
entirely.  (Test blocks are the lines opening a test function/method:
`def test_` at top level for pytest, indented `    def test_` for
unittest.) -/
theorem c2_block_counts (c : TestConfig) :
    (pytest_code_lines c).countP
        (fun l => hasPrefixB ("def test_".data) l)
      = 1 + (if c.include_parametrize then 1 else 0)
          + (if c.test_type = TestType.api then 1 else 0) ∧
    (unittest_code_lines c).countP
        (fun l => hasPrefixB ("    def test_".data) l)
      = 1 + (if c.test_type = TestType.api then 1 else 0) ∧
    TestCodeGenerator.generate c ≠ [] := by
  obtain ⟨fw, tt, nm, mp, fx, mk, pz⟩ := c
  refine ⟨?_, ?_, ?_⟩
  · cases fx <;> cases mk <;> cases pz <;> cases tt <;> rfl
  · cases mk <;> cases tt <;> rfl
  · cases fw
    · exact pyJoin_cons_ne_nil _ _ _ (by decide)
    · exact pyJoin_cons_ne_nil _ _ _ (by decide)
    · exact pyJoin_cons_ne_nil _ _ _ (by decide)
    · exact pyJoin_cons_ne_nil _ _ _ (by decide)

/-- Claim C3 counterexample.  In src/test_automation.py the framework
identifier `cobol-unit` is accepted silently: construction stores it
unvalidated and `generate_function_test` — a function with no raise path,
embedded as the total `generate_function_test` — skips both framework
branches and returns the empty string, which the source then records in
`generated_tests`.  Nothing fails with `UnknownFramework`. -/
theorem c3_counterexample :
    generate_function_test ("cobol-unit".data) ("mymodule".data)
        ("multiply".data) [⟨.plain (.int 2), .int 4⟩] = [] ∧
    generate_function_test ("pytest".data) ("mymodule".data)
        ("multiply".data) [⟨.plain (.int 2), .int 4⟩] ≠ [] := by
  exact ⟨by decide, by decide⟩

/-- Claim C3 (corrected).  The two variants disagree.
src/test_generator.py rejects unknown identifiers at construction
(`ValueError`, case-insensitively accepting only `pytest` and
`unittest`), never substituting a default.  src/test_automation.py
accepts any identifier at construction, and for an identifier other than
exactly `pytest` or `unittest` its `generate_function_test` raises
nothing and produces the empty string — no error, no default
substitution. -/
theorem c3_unknown_framework :
    (∀ fw, pyLower fw ≠ "pytest".data → pyLower fw ≠ "unittest".data →
       framework_init fw =
         .error ("Framework must be \x27pytest\x27 or \x27unittest\x27".data)) ∧
    (∀ fw fm fn tcs, fw ≠ "pytest".data → fw ≠ "unittest".data →
       generate_function_test fw fm fn tcs = []) ∧
    framework_init ("PyTest".data) = .ok ("pytest".data) := by
  refine ⟨?_, ?_, by rfl⟩
  · intro fw h₁ h₂
    simp [framework_init, h₁, h₂]
  · intro fw fm fn tcs h₁ h₂
    simp [generate_function_test, h₁, h₂]

/-- Witness for C3 at the identifier `cobol-unit`. -/
theorem c3_witness :
    framework_init ("cobol-unit".data) =
      .error ("Framework must be \x27pytest\x27 or \x27unittest\x27".data) ∧
    generate_function_test ("cobol-unit".data) ("calculator".data)
        ("add".data) [⟨.dict [], .none⟩] = [] :=
  ⟨c3_unknown_framework.1 ("cobol-unit".data) (by decide) (by decide),
   c3_unknown_framework.2.1 ("cobol-unit".data) ("calculator".data)
     ("add".data) [⟨.dict [], .none⟩] (by decide) (by decide)⟩

/-- Claim C5 counterexample.  For subject `user_service`,
`_generate_junit` names the suite `TestUser_Service` — a `Test` prefix
over `str.title`, which keeps underscores — so the emitted text contains
neither the claimed `UserServiceTest` nor a suite line in that shape, and
`_generate_unittest` likewise emits `TestUser_Service`, not
`TestUserService`. -/
theorem c5_counterexample :
    pyTitle ("user_service".data) = "User_Service".data ∧
    ("public class Test".data ++ pyTitle ("user_service".data)
        ++ " \x7b".data) ∈ junit_code_lines cfgJunitUS ∧
    containsSub (TestCodeGenerator.generate cfgJunitUS)
        ("UserServiceTest".data) = false ∧
    containsSub (TestCodeGenerator.generate cfgUnittestUS)
        ("TestUserService".data) = false := by
  exact ⟨by decide, by decide, by decide, by decide⟩

/-- Claim C5 (corrected).  The suite-naming rules actually implemented:
`_generate_junit` and `_generate_unittest` of
test_automation_generator.py both use `Test` + `subject.title()`
(underscores kept, so `user_service` gives `TestUser_Service`), while
`_generate_unittest_function` of test_generator.py uses `Test` +
capitalised-and-joined underscore words (true PascalCase, so
`user_service` gives `TestUserService`).  No renderer implements the
`<Subject>Test` suffix convention. -/
theorem c5_suite_naming (c : TestConfig) :
    ("public class Test".data ++ pyTitle c.test_name ++ " \x7b".data)
      ∈ junit_code_lines c ∧
    ("class Test".data ++ pyTitle c.test_name
        ++ "(unittest.TestCase):".data) ∈ unittest_code_lines c ∧
    unittest_function_class_line ("user_service".data)
      = "class TestUserService(unittest.TestCase):".data := by
  refine ⟨?_, ?_, by decide⟩
  · simp [junit_code_lines, junit_class_open]
  · simp [unittest_code_lines]

/-- Claim C7 (confirmed, against the spec-modelled renderer).  Parsing
the JSON specification with `class_name = "Calculator"` and the single
test case `{"name": "add", "assertions": ["assert add(2,3)==5"]}` and
rendering it with the pytest-like renderer yields text containing both
`def test_add` and `assert add(2,3)==5`. -/
theorem c7_json_round_trip :
    containsSub
      (generate_test_class (parse_spec jsonCalc).fst (parse_spec jsonCalc).snd)
      ("def test_add".data) = true ∧
    containsSub
      (generate_test_class (parse_spec jsonCalc).fst (parse_spec jsonCalc).snd)
      ("assert add(2,3)==5".data) = true := by
  exact ⟨by decide, by decide⟩

/-- Claim C8 counterexample.  The CLI derives `calculator.py` for class
name `Calculator` — there is no `test_` prefix — and nothing under src/
ever derives a `.test.js` or `Test.java` name (the filename always ends
in `.py`). -/
theorem c8_counterexample :
    output_filename ("Calculator".data) ≠ "test_calculator.py".data ∧
    output_filename ("AuthService".data) ≠ "authservice.test.js".data := by
  exact ⟨by decide, by decide⟩

/-- Claim C8 (corrected).  The only file-name derivation under src/ is
the CLI's: insert `_` before each interior capital, lower-case, append
`.py` — deterministically, but with no `test_` prefix and no
framework-specific extensions (`save_test_suite` writes to a
caller-supplied name).  Subject `"Auth Service"` would keep its space:
`auth _service`, not the claimed `authservice`. -/
theorem c8_output_filename :
    output_filename ("Calculator".data) = "calculator.py".data ∧
    output_filename ("AuthService".data) = "auth_service.py".data ∧
    snake_case ("Auth Service".data) = "auth _service".data := by
  exact ⟨by decide, by decide, by decide⟩

/-- Claim C9 counterexample.  With `include_parametrize` set: the JUnit
renderer's extra block uses `@ValueSource(ints = {1, 2, 3})` — single
ints, not the (input, expected) pairs (1,1),(2,2),(3,3) — and its name
suffix is `Parametrized`, so no `_parametrized` appears anywhere in the
output; the Jest renderer's extra block carries the label
`should handle input %i and return %i` with no `_parametrized` suffix
either; and the unittest renderer emits no parametrized block at all
(still exactly one test method). -/
theorem c9_counterexample :
    ("    @ValueSource(ints = \x7b1, 2, 3\x7d)".data)
      ∈ junit_code_lines cfgJunitParam ∧
    containsSub (TestCodeGenerator.generate cfgJunitParam)
      ("Parametrized(int input)".data) = true ∧
    containsSub (TestCodeGenerator.generate cfgJunitParam)
      ("_parametrized".data) = false ∧
    containsSub (TestCodeGenerator.generate cfgJestParam)
      ("_parametrized".data) = false ∧
    (unittest_code_lines cfgUnittestParam).countP
      (fun l => hasPrefixB ("    def test_".data) l) = 1 := by
  exact ⟨by decide, by decide, by decide, by decide, by decide⟩

/-- Claim C9 (corrected).  When `include_parametrize` is set: the pytest
renderer emits its fixed-sample parametrized block (table
(1,1),(2,2),(3,3), name suffix `_parametrized`); the Jest renderer emits
a `test.each` block over the pairs [1,1],[2,2],[3,3] labelled
`should handle input %i and return %i`; the JUnit renderer emits a
`@ValueSource(ints = {1, 2, 3})` block with name suffix `Parametrized`;
and the unittest renderer is unchanged — it never reads the flag. -/
theorem c9_parametrize_blocks (c : TestConfig)
    (h : c.include_parametrize = true) :
    List.IsInfix (pytest_param_lines c.test_name) (pytest_code_lines c) ∧
    List.IsInfix jest_param_lines (jest_code_lines c) ∧
    List.IsInfix (junit_param_lines c.test_name) (junit_code_lines c) ∧
    (∀ b, unittest_code_lines { c with include_parametrize := b }
            = unittest_code_lines c) := by
  refine ⟨?_, ?_, ?_, fun b => rfl⟩
  · exact ⟨pytest_header_lines c
             ++ (if c.include_fixtures then pytest_fixture_lines else [])
             ++ pytest_member_lines c,
           (if c.test_type = TestType.api
            then pytest_api_lines c.test_name else []),
           by simp [pytest_code_lines, h, List.append_assoc]⟩
  · exact ⟨jest_header_lines c
             ++ (if c.include_fixtures then jest_fixture_lines else [])
             ++ jest_describe_lines c,
           (if c.test_type = TestType.api then jest_api_lines else [])
             ++ ["\x7d);".data],
           by simp [jest_code_lines, h, List.append_assoc]⟩
  · exact ⟨junit_header_lines c
             ++ (if c.include_mocks then junit_mock_imports else [])
             ++ junit_class_open c
             ++ (if c.include_fixtures then junit_fixture_lines else [])
             ++ junit_test_lines c,
           (if c.test_type = TestType.api
            then junit_api_lines c.test_name else [])
             ++ ["\x7d".data],
           by simp [junit_code_lines, h, List.append_assoc]⟩

/-- Witness for C9 at a concrete configuration with
`include_parametrize` on. -/
theorem c9_witness :
    List.IsInfix (pytest_param_lines (cfgPytestParam.test_name))
      (pytest_code_lines cfgPytestParam) ∧
    List.IsInfix jest_param_lines (jest_code_lines cfgPytestParam) ∧
    List.IsInfix (junit_param_lines (cfgPytestParam.test_name))
      (junit_code_lines cfgPytestParam) ∧
    (∀ b, unittest_code_lines { cfgPytestParam with include_parametrize := b }
            = unittest_code_lines cfgPytestParam) :=
  c9_parametrize_blocks cfgPytestParam (by rfl)

end G4J
